import Mathlib

/-!
Verification of the bcachefs bucket/usage accounting engine
(src/fs/bcachefs/buckets.c) against its natural-language specification.

Modelling conventions:
* C `u64`/`s64` counters are modelled as `ℤ` (all the facts proved here are
  about exact deltas, which hold identically modulo 2^64); where wraparound is
  itself the subject of a claim (the reserve/avail factor arithmetic, the
  `(unsigned)` cast in the sector-overflow check, the `u16` sector counters)
  the reduction `% 2^w` is written explicitly.
* Bucket generations are `u8` values, modelled as `ℕ` together with the
  wrapping signed comparison `gen_cmp` (an `s8` subtraction).
* Stateful C code is modelled by explicit state passing: each marking
  function consumes a state and returns `(return value, new state)` or an
  `Except` value.
-/

namespace Buckets

/-- `U16_MAX`, the ceiling of the packed 16-bit sector counters. -/
def U16_MAX : ℕ := 65535

/-- The Linux `EIO` errno; the marking engine returns `-EIO` on fatal
consistency faults. -/
def eio : ℤ := 5

/-- Modelled from the spec: the bounded staleness window
(`BUCKET_GC_GEN_MAX` from buckets.h, which is not part of the sources
here); a pointer generation older than the bucket's by more than this is a
fatal fault.  The upstream value is 96; no claim below depends on the exact
value beyond it being at least 1. -/
def BUCKET_GC_GEN_MAX : ℤ := 96

/-- `enum bch_data_type`: the kind of data occupying a bucket.  `none` is
the zero (falsy) value used by the C code's truthiness tests. -/
inductive BchDataType where
  | none | sb | journal | btree | user | cached | parity
  deriving DecidableEq, Repr

/-- `gen_cmp(a, b) = (s8)(a - b)`: wrapping 8-bit signed distance between
two bucket generations. -/
def gen_cmp (a b : ℕ) : ℤ :=
  if ((a : ℤ) - b) % 256 < 128 then ((a : ℤ) - b) % 256
  else ((a : ℤ) - b) % 256 - 256

/-- `gen_after(a, b)`: generation `a` is strictly newer than `b` in the
wrapping order. -/
def gen_after (a b : ℕ) : Bool := 0 < gen_cmp a b

/-- The in-memory state of one bucket that `check_bucket_ref` /
`__mark_pointer` consult: generation, data type and the two packed `u16`
sector counters (from `struct bucket_mark`). -/
structure BucketState where
  gen : ℕ
  data_type : BchDataType
  dirty_sectors : ℕ
  cached_sectors : ℕ
  deriving DecidableEq, Repr

/-- A decoded extent pointer as seen by the marking engine: the cache flag,
erasure-coding membership, device, embedded generation, and the crc sizes
used to scale sector deltas (`struct extent_ptr_decoded`). -/
structure ExtentPtr where
  cached : Bool
  has_ec : Bool
  dev : ℕ
  gen : ℕ
  ec_idx : ℕ
  ec_block : ℕ
  crc_live_size : ℕ
  crc_compressed_size : ℕ
  crc_uncompressed_size : ℕ
  deriving DecidableEq, Repr

/-- `check_bucket_ref` (buckets.c): validate one pointer reference against
the bucket it points into.  Returns `0` (ok), `1` (stale pointer: the
caller must skip this pointer's delta) or `-EIO` (fatal consistency fault).
The branches appear in source order; the sector-overflow test reproduces
the C `(unsigned)(bucket_sectors + sectors) > U16_MAX`, i.e. the signed
64-bit sum reduced mod 2^32. -/
def check_bucket_ref (ptr_cached : Bool) (ptr_gen : ℕ) (sectors : ℤ)
    (ptr_data_type : BchDataType) (bucket_gen : ℕ)
    (bucket_data_type : BchDataType) (dirty_sectors cached_sectors : ℕ) : ℤ :=
  if gen_after ptr_gen bucket_gen then
    -eio
  else if BUCKET_GC_GEN_MAX < gen_cmp bucket_gen ptr_gen then
    -eio
  else if bucket_gen ≠ ptr_gen ∧ !ptr_cached then
    -eio
  else if bucket_gen ≠ ptr_gen then
    1
  else if bucket_data_type ≠ .none ∧ ptr_data_type ≠ .none ∧
          bucket_data_type ≠ ptr_data_type then
    -eio
  else if U16_MAX <
      ((((if !ptr_cached then dirty_sectors else cached_sectors) : ℤ) + sectors)
        % (2 ^ 32 : ℤ)).toNat then
    -eio
  else
    0

/-- The `u16 += s64` of `__mark_pointer`'s `*dst_sectors += sectors`:
addition reduced mod 2^16. -/
def u16_add (x : ℕ) (δ : ℤ) : ℕ := (((x : ℤ) + δ) % (2 ^ 16 : ℤ)).toNat

/-- The state written back by a successful `__mark_pointer`: the targeted
counter (dirty for a non-cached pointer, cached otherwise) absorbs the
delta, and the data type is recomputed from the resulting counts
(`ptr_data_type` if either count is nonzero, else unset). -/
def mark_pointer_apply (g : BucketState) (ptr_cached : Bool) (sectors : ℤ)
    (ptr_data_type : BchDataType) : BucketState :=
  { g with
    dirty_sectors :=
      if !ptr_cached then u16_add g.dirty_sectors sectors else g.dirty_sectors,
    cached_sectors :=
      if !ptr_cached then g.cached_sectors else u16_add g.cached_sectors sectors,
    data_type :=
      if (if !ptr_cached then u16_add g.dirty_sectors sectors
          else g.dirty_sectors) ≠ 0 ∨
         (if !ptr_cached then g.cached_sectors
          else u16_add g.cached_sectors sectors) ≠ 0
      then ptr_data_type else .none }

/-- `__mark_pointer` (buckets.c): validate via `check_bucket_ref`, then add
the signed sector delta to the dirty or cached counter and recompute the
bucket's data type from the resulting counts.  Returns the validation
result together with the (new) bucket state; on a nonzero validation
result the state is unchanged. -/
def mark_pointer (g : BucketState) (ptr_cached : Bool) (ptr_gen : ℕ)
    (sectors : ℤ) (ptr_data_type : BchDataType) : ℤ × BucketState :=
  if check_bucket_ref ptr_cached ptr_gen sectors ptr_data_type
      g.gen g.data_type g.dirty_sectors g.cached_sectors ≠ 0 then
    (check_bucket_ref ptr_cached ptr_gen sectors ptr_data_type
      g.gen g.data_type g.dirty_sectors g.cached_sectors, g)
  else
    (0, mark_pointer_apply g ptr_cached sectors ptr_data_type)

/-! ## Filesystem usage aggregate and the replicas ledger -/

/-- `BCH_REPLICAS_MAX`: size of the per-replication-factor
persistent-reservation array (from the on-disk format header, not among the
sources here; the spec only requires it to be a fixed size). -/
def BCH_REPLICAS_MAX : ℕ := 4

/-- Pointwise additive update of an indexed counter family:
`bump f i v` adds `v` to the counter at index `i` (the shape of every
`counter[idx] += delta` statement in the C code). -/
def bump (f : ℕ → ℤ) (i : ℕ) (v : ℤ) : ℕ → ℤ :=
  fun n => f n + (if n = i then v else 0)

/-- `struct bch_fs_usage`: the filesystem-wide usage aggregate.  The
per-ledger-entry sector counters (`replicas[]`) and the
per-replication-factor reservations (`persistent_reserved[]`) are indexed
families of `u64` counters. -/
@[ext] structure FsUsage where
  hidden : ℤ
  btree : ℤ
  data : ℤ
  cached : ℤ
  reserved : ℤ
  online_reserved : ℤ
  nr_inodes : ℤ
  persistent_reserved : ℕ → ℤ
  replicas : ℕ → ℤ

/-- `fs_usage_data_type_to_base` (buckets.c): fold a signed sector delta
into my base counter chosen by data type. -/
def fs_usage_data_type_to_base (fs : FsUsage) (dt : BchDataType) (sectors : ℤ) :
    FsUsage :=
  match dt with
  | .btree => { fs with btree := fs.btree + sectors }
  | .user => { fs with data := fs.data + sectors }
  | .parity => { fs with data := fs.data + sectors }
  | .cached => { fs with cached := fs.cached + sectors }
  | _ => fs

/-- `struct bch_replicas_entry`: a (data type, device set, required
replicas) descriptor of one replication scheme. -/
structure ReplicasEntry where
  data_type : BchDataType
  nr_required : ℕ
  devs : List ℕ
  deriving DecidableEq, Repr

/-- Modelled from the spec: `bch2_replicas_entry_idx` (replicas.c, not
among the sources here) maps a replicas descriptor to its stable index in
the deduplicated ledger, and lookup of an unknown entry is a distinct
error, not an auto-insert.  The ledger is modelled as the list of its
entries in index order. -/
def replicas_entry_idx (ledger : List ReplicasEntry) (r : ReplicasEntry) :
    Option ℕ :=
  ledger.indexOf? r

/-- `update_replicas` (buckets.c): resolve the entry to its ledger index;
on failure return the error with the aggregate untouched, otherwise fold
the delta into the base counter for the entry's data type and into the
entry's per-index sector counter. -/
def update_replicas (ledger : List ReplicasEntry) (fs : FsUsage)
    (r : ReplicasEntry) (sectors : ℤ) : Option FsUsage :=
  match replicas_entry_idx ledger r with
  | none => none
  | some idx =>
    let fs1 := fs_usage_data_type_to_base fs r.data_type sectors
    some { fs1 with replicas := bump fs1.replicas idx sectors }

/-- Modelled from the spec: `bch2_replicas_entry_cached` (replicas.h, not
among the sources here) builds the ledger descriptor for cached data on
one device. -/
def replicas_entry_cached (dev : ℕ) : ReplicasEntry :=
  { data_type := .cached, nr_required := 1, devs := [dev] }

/-- `update_cached_sectors` (buckets.c): fold a cached-sector delta for one
device through the ledger; the C caller ignores the lookup result, so an
unresolved cached entry leaves the aggregate untouched. -/
def update_cached_sectors (ledger : List ReplicasEntry) (fs : FsUsage)
    (dev : ℕ) (sectors : ℤ) : FsUsage :=
  (update_replicas ledger fs (replicas_entry_cached dev) sectors).getD fs

/-- `struct replicas_delta_list`: the transaction-scoped buffer of
(replicas entry, signed sector delta) pairs plus the inode-count and
per-replication-factor reservation deltas. -/
structure ReplicasDeltaList where
  d : List (ReplicasEntry × ℤ)
  nr_inodes : ℤ
  persistent_reserved : ℕ → ℤ

/-- One unwind step of `bch2_replicas_delta_list_apply`'s failure path:
re-apply a previously applied delta negated (the C ignores the return
value of the unwinding `update_replicas` call). -/
def unapply_delta (ledger : List ReplicasEntry) (fs : FsUsage)
    (a : ReplicasEntry × ℤ) : FsUsage :=
  (update_replicas ledger fs a.1 (-a.2)).getD fs

/-- The main loop of `bch2_replicas_delta_list_apply`: apply the delta
entries in order; on the first entry whose descriptor is not in the ledger,
negate the contribution of every previously applied entry (`applied`, in
application order, mirroring the C's unwind loop from `r->d` to `top`) and
return `-1`. -/
def delta_list_apply_loop (ledger : List ReplicasEntry) :
    FsUsage → List (ReplicasEntry × ℤ) → List (ReplicasEntry × ℤ) →
    ℤ × FsUsage
  | fs, _, [] => (0, fs)
  | fs, applied, a :: rest =>
    match update_replicas ledger fs a.1 a.2 with
    | some fs1 => delta_list_apply_loop ledger fs1 (applied ++ [a]) rest
    | none => (-1, applied.foldl (unapply_delta ledger) fs)

/-- `bch2_replicas_delta_list_apply` (buckets.c): apply a transaction's
replicas delta list to a usage aggregate.  On success, additionally fold
the inode-count delta and the per-replication-factor reservation deltas
(the loop `for i < BCH_REPLICAS_MAX`) into the aggregate. -/
def bch2_replicas_delta_list_apply (ledger : List ReplicasEntry)
    (fs : FsUsage) (r : ReplicasDeltaList) : ℤ × FsUsage :=
  match delta_list_apply_loop ledger fs [] r.d with
  | (0, fs1) =>
    let fs2 := { fs1 with nr_inodes := fs1.nr_inodes + r.nr_inodes }
    (0, (List.range BCH_REPLICAS_MAX).foldl
      (fun f i =>
        { f with reserved := f.reserved + r.persistent_reserved i,
                 persistent_reserved :=
                   bump f.persistent_reserved i (r.persistent_reserved i) })
      fs2)
  | (ret, fs1) => (ret, fs1)

/-! ## `bch2_fs_usage_apply` (reservation debit / overcommit reclaim) -/

/-- `struct disk_reservation`: a caller-held capacity ticket. -/
structure DiskReservation where
  sectors : ℤ
  deriving DecidableEq, Repr

/-- Result of `bch2_fs_usage_apply`: return value, adjusted usage delta,
adjusted reservation, the new global `sectors_available` counter, and
whether the overcommit warning fired (`WARN_ONCE`'s condition held). -/
structure FsUsageApplyResult where
  ret : ℤ
  fs : FsUsage
  disk_res : Option DiskReservation
  sectors_available : ℤ
  warned : Bool

/-- `bch2_fs_usage_apply` (buckets.c): `added` is the delta's increase of
data plus reserved sectors.  Any excess over the caller's reservation is
forcibly subtracted from the global `sectors_available` counter, reported,
and the function fails; whatever increase remains within the reservation is
debited from the reservation's remaining sectors and from the
`online_reserved` counter. -/
def bch2_fs_usage_apply (fs : FsUsage) (disk_res : Option DiskReservation)
    (sectors_available : ℤ) : FsUsageApplyResult :=
  let added := fs.data + fs.reserved
  let res_sectors := match disk_res with
    | some res => res.sectors
    | none => 0
  let should_not_have_added := added - res_sectors
  let warned := 0 < should_not_have_added
  let sectors_available' := if warned
    then sectors_available - should_not_have_added
    else sectors_available
  let added' := if warned then added - should_not_have_added else added
  let ret : ℤ := if warned then -1 else 0
  if 0 < added' then
    { ret := ret,
      fs := { fs with online_reserved := fs.online_reserved - added' },
      disk_res := disk_res.map (fun res => ⟨res.sectors - added'⟩),
      sectors_available := sectors_available',
      warned := warned }
  else
    { ret := ret, fs := fs, disk_res := disk_res,
      sectors_available := sectors_available', warned := warned }

/-! ## Stripe accounting -/

/-- `struct stripe` (in-memory erasure-coded stripe bookkeeping): liveness,
geometry, per-block live-sector counts and the derived non-empty-block
count, plus the replicas descriptor of the stripe. -/
structure StripeM where
  alive : Bool
  sectors : ℕ
  algorithm : ℕ
  nr_blocks : ℕ
  nr_redundant : ℕ
  block_sectors : ℕ → ℤ
  blocks_nonempty : ℕ
  r : ReplicasEntry

/-- Result state of `bch2_mark_stripe_ptr`: the updated stripe table and
usage aggregate, plus whether the stripe's position in the reclaim heap was
re-sorted (`bch2_stripes_heap_update` was called). -/
structure MarkStripePtrOk where
  stripes : ℕ → Option StripeM
  fs : FsUsage
  heap_updated : Bool

/-- `bch2_mark_stripe_ptr` (buckets.c): marking one erasure-coded block
reference.  A missing or dead stripe is a reported fatal fault (`-EIO`,
nothing modified).  On a live stripe: add the signed delta to the named
block's sector count, recompute the non-empty-block count by scanning all
blocks (the C `for (i = 0; i < m->nr_blocks; i++)` loop), update the
reclaim heap only if that count changed and we are not in GC mode, and fold
the delta into the stripe's replicas ledger entry. -/
def bch2_mark_stripe_ptr (ledger : List ReplicasEntry)
    (stripes : ℕ → Option StripeM) (fs : FsUsage)
    (idx block : ℕ) (data_type : BchDataType) (sectors : ℤ) (gc : Bool) :
    Except ℤ MarkStripePtrOk :=
  match stripes idx with
  | none => .error (-eio)
  | some m =>
    if !m.alive then .error (-eio)
    else
      let bs' := bump m.block_sectors block sectors
      let nonempty := (List.range m.nr_blocks).foldl
        (fun acc i => acc + if bs' i ≠ 0 then 1 else 0) 0
      let heap_updated := decide (m.blocks_nonempty ≠ nonempty) && !gc
      let m' := { m with block_sectors := bs', blocks_nonempty := nonempty }
      let re := { m.r with data_type := data_type }
      let fs' := (update_replicas ledger fs re sectors).getD fs
      .ok { stripes := fun j => if j = idx then some m' else stripes j,
            fs := fs',
            heap_updated := heap_updated }

/-! ## Extent marking (`bch2_mark_extent` and its per-pointer loop) -/

/-- `disk_sectors_scaled` (buckets.c): `DIV_ROUND_UP(sectors * n, d)`,
the compression scaling of a sector count. -/
def disk_sectors_scaled (n d sectors : ℕ) : ℤ :=
  ((sectors * n + d - 1) / d : ℕ)

/-- `__ptr_disk_sectors_delta` (buckets.c): per-pointer signed disk-sector
delta for the three overwrite shapes.  In the split case
(`BTREE_TRIGGER_OVERWRITE_SPLIT`) it is minus the scaled old size, plus the
scaled offset, plus the scaled remainder (old size minus offset plus the
signed delta); the remainder and the plain-overwrite argument are
nonnegative by the C's `BUG_ON(offset + -delta > old_size)` and are passed
as `unsigned`. -/
def ptr_disk_sectors_delta_raw (old_size offset : ℕ) (delta : ℤ)
    (ovw_split ovw : Bool) (n d : ℕ) : ℤ :=
  if ovw_split then
    -(disk_sectors_scaled n d old_size) +
      disk_sectors_scaled n d offset +
      disk_sectors_scaled n d ((old_size : ℤ) - offset + delta).toNat
  else if ovw then
    -(disk_sectors_scaled n d old_size) +
      disk_sectors_scaled n d ((old_size : ℤ) + delta).toNat
  else
    disk_sectors_scaled n d delta.toNat

/-- `ptr_disk_sectors_delta` (buckets.c): the scaling applied with the
pointer's crc sizes (`live_size`, `compressed_size`, `uncompressed_size`). -/
def ptr_disk_sectors_delta (p : ExtentPtr) (offset : ℕ) (delta : ℤ)
    (ovw_split ovw : Bool) : ℤ :=
  ptr_disk_sectors_delta_raw p.crc_live_size offset delta ovw_split ovw
    p.crc_compressed_size p.crc_uncompressed_size

/-- The accumulated state threaded through `bch2_mark_extent`'s pointer
loop: the bucket table (indexed by device), stripe table, usage aggregate,
and the running `dirty_sectors` / device-list / `nr_required` fields of the
replicas entry being assembled. -/
structure ExtentLoopState where
  buckets : ℕ → BucketState
  stripes : ℕ → Option StripeM
  fs : FsUsage
  dirty_sectors : ℤ
  devs : List ℕ
  nr_required : ℕ

/-- One iteration of `bch2_mark_extent`'s `bkey_for_each_ptr_decode` loop:
compute the pointer's disk-sector delta, mark the pointer's bucket
(`bch2_mark_pointer`), propagate fatal errors, and then either record the
cached-sector delta (skipped for a stale pointer), accumulate a dirty
pointer into the replicas entry under assembly, or delegate an
erasure-coded pointer to `bch2_mark_stripe_ptr` and drop the entry's
required-replica count to zero. -/
def mark_extent_step (ledger : List ReplicasEntry) (st : ExtentLoopState)
    (p : ExtentPtr) (offset : ℕ) (sectors : ℤ)
    (data_type : BchDataType) (ovw_split ovw gc : Bool) :
    Except ℤ ExtentLoopState :=
  let disk_sectors := if data_type = .btree
    then sectors
    else ptr_disk_sectors_delta p offset sectors ovw_split ovw
  let g := st.buckets p.dev
  let (ret, g') := mark_pointer g p.cached p.gen disk_sectors data_type
  if ret < 0 then .error ret
  else
    let st := { st with buckets := fun dv => if dv = p.dev then g' else st.buckets dv }
    if p.cached then
      if 0 < ret then
        .ok st
      else
        .ok { st with fs := update_cached_sectors ledger st.fs p.dev disk_sectors }
    else if !p.has_ec then
      .ok { st with dirty_sectors := st.dirty_sectors + disk_sectors,
                    devs := st.devs ++ [p.dev] }
    else
      match bch2_mark_stripe_ptr ledger st.stripes st.fs p.ec_idx p.ec_block
          data_type disk_sectors gc with
      | .error e => .error e
      | .ok out =>
        .ok { st with stripes := out.stripes, fs := out.fs,
                      nr_required := 0 }

/-- `bch2_mark_extent` (buckets.c): run the pointer loop over the extent's
decoded pointers, then, if any non-erasure-coded dirty pointer was seen
(`r.e.nr_devs` nonzero), fold the accumulated dirty sectors into the
assembled replicas entry (the C ignores `update_replicas`'s return value
here). -/
def bch2_mark_extent (ledger : List ReplicasEntry)
    (buckets : ℕ → BucketState) (stripes : ℕ → Option StripeM)
    (fs : FsUsage) (ptrs : List ExtentPtr) (offset : ℕ) (sectors : ℤ)
    (data_type : BchDataType) (ovw_split ovw gc : Bool) :
    Except ℤ ExtentLoopState :=
  let st0 : ExtentLoopState :=
    { buckets := buckets, stripes := stripes, fs := fs,
      dirty_sectors := 0, devs := [], nr_required := 1 }
  match ptrs.foldlM
      (fun st p => mark_extent_step ledger st p offset sectors data_type
        ovw_split ovw gc) st0 with
  | .error e => .error e
  | .ok st =>
    if st.devs ≠ [] then
      let re : ReplicasEntry :=
        { data_type := data_type, nr_required := st.nr_required,
          devs := st.devs }
      .ok { st with fs := (update_replicas ledger st.fs re st.dirty_sectors).getD st.fs }
    else
      .ok st

/-! ## Sequences of pointer-mark operations on one bucket -/

/-- One pointer-mark operation against a single bucket: the pointer's cache
flag, embedded generation, data type, and the signed sector delta. -/
structure MarkOp where
  cached : Bool
  gen : ℕ
  data_type : BchDataType
  delta : ℤ
  deriving DecidableEq, Repr

/-- Run a sequence of pointer-mark operations on one bucket, recording the
final bucket state and the sums of the signed deltas of the *applied*
(successfully validated) operations, split into the dirty and cached
targets.  Rejected operations (nonzero `check_bucket_ref` result) leave the
bucket untouched and contribute nothing. -/
def run_mark_ops : BucketState → List MarkOp → BucketState × ℤ × ℤ
  | g, [] => (g, 0, 0)
  | g, op :: rest =>
    if (mark_pointer g op.cached op.gen op.delta op.data_type).1 = 0 then
      ((run_mark_ops (mark_pointer g op.cached op.gen op.delta op.data_type).2 rest).1,
       (if op.cached then 0 else op.delta) +
         (run_mark_ops (mark_pointer g op.cached op.gen op.delta op.data_type).2 rest).2.1,
       (if op.cached then op.delta else 0) +
         (run_mark_ops (mark_pointer g op.cached op.gen op.delta op.data_type).2 rest).2.2)
    else
      run_mark_ops (mark_pointer g op.cached op.gen op.delta op.data_type).2 rest

/-! ## Extent-overwrite overlap arithmetic (`bch2_mark_update`) -/

/-- Modelled from the spec: `bch2_extent_overlap` (extents.h, not among the
sources here) classifies how a new extent overlaps an existing one into the
four cases full-replace / back-truncate / front-truncate / middle-split.
Extents are half-open sector intervals `[start, end)`. -/
inductive Overlap where
  | all | back | front | middle
  deriving DecidableEq, Repr

/-- Modelled from the spec: the overlap classification.  `middle` is a
strict interior overwrite (old extends beyond the new key on both sides). -/
def bch2_extent_overlap (new_start new_end old_start old_end : ℕ) : Overlap :=
  if new_start ≤ old_start then
    if old_end ≤ new_end then .all else .front
  else
    if old_end ≤ new_end then .back else .middle

/-- The (offset, signed sector delta, overwrite-split flag) triple that
`bch2_mark_update`'s extents branch passes to `bch2_mark_key_locked` for
one overlapped old key, per its `switch (bch2_extent_overlap(...))`. -/
def mark_update_overwrite_delta (new_start new_len old_start old_len : ℕ) :
    ℕ × ℤ × Bool :=
  match bch2_extent_overlap new_start (new_start + new_len)
      old_start (old_start + old_len) with
  | .all => (0, -(old_len : ℤ), false)
  | .back => (new_start - old_start,
      (new_start : ℤ) - (old_start + old_len), false)
  | .front => (0, (old_start : ℤ) - (new_start + new_len), false)
  | .middle => (new_start - old_start, -(new_len : ℤ), true)

/-- The full list of (offset, signed sectors, split flag) key-level deltas
`bch2_mark_update` issues for inserting a new extent over one existing old
extent: first the insert trigger `(0, +new_len)`, then the overwrite
trigger for the old key. -/
def mark_update_extent_deltas (new_start new_len old_start old_len : ℕ) :
    List (ℕ × ℤ × Bool) :=
  [(0, (new_len : ℤ), false),
   mark_update_overwrite_delta new_start new_len old_start old_len]

/-! ## Reservation arithmetic (`reserve_factor` / `avail_factor`) -/

/-- 2^64, the modulus of the C `u64` arithmetic. -/
def U64_MOD : ℕ := 2 ^ 64

/-- `round_up(r, 1 << RESERVE_FACTOR)` from the kernel headers: round up to
a multiple of 64.  The kernel computes `((r - 1) | 63) + 1` in `u64`; on
every `u64` input that equals `ceil(r / 64) * 64` reduced mod 2^64, which
is the form used here. -/
def round_up64 (r : ℕ) : ℕ := (((r + 63) / 64) * 64) % U64_MOD

/-- `reserve_factor` (buckets.c): `r + (round_up(r, 64) >> 6)` in `u64`
arithmetic — inflate a reserved-sector count by 1/64 rounding up. -/
def reserve_factor (r : ℕ) : ℕ := (r + round_up64 r / 64) % U64_MOD

/-- `avail_factor` (buckets.c): `div_u64(r << 6, 65)` in `u64` arithmetic —
the inverse deflation 64/65. -/
def avail_factor (r : ℕ) : ℕ := ((r * 64) % U64_MOD) / 65

/-- The fields of `struct bch_fs_usage_short` produced by
`__bch2_fs_usage_read_short`. -/
structure FsUsageShort where
  capacity : ℕ
  used : ℕ
  free : ℕ
  nr_inodes : ℕ
  deriving DecidableEq, Repr

/-- `__bch2_fs_usage_read_short` (buckets.c) over a point-in-time usage
aggregate (counters here are the nonnegative `u64` values the retry loop
reads): capacity net of hidden sectors, used = data plus the
reserve-factored reservations clamped to capacity, free = capacity minus
used. -/
def fs_usage_read_short (capacity hidden data btree_sectors reserved
    online_reserved nr_inodes : ℕ) : FsUsageShort :=
  let cap := capacity - hidden
  let used := min cap (data + btree_sectors +
    reserve_factor (reserved + online_reserved))
  { capacity := cap, used := used, free := cap - used, nr_inodes := nr_inodes }

/-! ## Disk reservations (`bch2_disk_reservation_add` / `_put`) -/

/-- `SECTORS_CACHE` (buckets.c): per-core refill batch size. -/
def SECTORS_CACHE : ℕ := 1024

/-- The reservation-relevant state: the calling core's cached
`pcpu->sectors_available`, the global `c->sectors_available` counter, the
`online_reserved` usage counter, and the caller's reservation ticket. -/
structure ResState where
  pcpu_sectors_available : ℕ
  sectors_available : ℕ
  online_reserved : ℤ
  res_sectors : ℕ
  deriving DecidableEq, Repr

/-- `bch2_disk_reservation_add` (buckets.c), single-threaded model.  Fast
path: debit the per-core cache when it covers the request.  Refill path:
move `min(sectors + SECTORS_CACHE, sectors_available)` from the global
counter into the per-core cache when that suffices.  Slow path
(`recalculate`): zero the core's cache, recompute the global counter as
`avail_factor` of the recomputed free space, and grant only if that (or the
no-fail flag) permits, else return `-ENOSPC` (modelled as `-28`).  Every
granted reservation adds `sectors` to `online_reserved` and to the
caller's ticket. -/
def bch2_disk_reservation_add (st : ResState) (sectors : ℕ) (nofail : Bool)
    (recomputed_free : ℕ) : ℤ × ResState :=
  if sectors ≤ st.pcpu_sectors_available then
    (0, { st with pcpu_sectors_available := st.pcpu_sectors_available - sectors,
                  online_reserved := st.online_reserved + sectors,
                  res_sectors := st.res_sectors + sectors })
  else if sectors ≤ min (sectors + SECTORS_CACHE) st.sectors_available then
    (0, { st with
          sectors_available :=
            st.sectors_available - min (sectors + SECTORS_CACHE) st.sectors_available,
          pcpu_sectors_available :=
            st.pcpu_sectors_available +
              min (sectors + SECTORS_CACHE) st.sectors_available - sectors,
          online_reserved := st.online_reserved + sectors,
          res_sectors := st.res_sectors + sectors })
  else if sectors ≤ avail_factor recomputed_free ∨ nofail then
    (0, { st with pcpu_sectors_available := 0,
                  sectors_available := avail_factor recomputed_free - sectors,
                  online_reserved := st.online_reserved + sectors,
                  res_sectors := st.res_sectors + sectors })
  else
    (-28, { st with pcpu_sectors_available := 0,
                    sectors_available := avail_factor recomputed_free })

/-- `__bch2_disk_reservation_put` (buckets.c): subtract the sectors still
held by the ticket from `online_reserved` and zero the ticket. -/
def bch2_disk_reservation_put (st : ResState) : ResState :=
  { st with online_reserved := st.online_reserved - st.res_sectors,
            res_sectors := 0 }

/-! ## Transactional metadata-bucket marking -/

/-- The staged allocation-record fields that
`__bch2_trans_mark_metadata_bucket` reads and writes
(`struct bkey_alloc_unpacked`). -/
structure AllocUnpacked where
  gen : ℕ
  data_type : BchDataType
  dirty_sectors : ℕ
  cached_sectors : ℕ
  deriving DecidableEq, Repr

/-- `__bch2_trans_mark_metadata_bucket` (buckets.c): stage a metadata mark
of a bucket's allocation record inside a transaction.  A conflicting data
type or a dirty-sector count that would exceed the device's bucket size is
a reported fatal fault (`-EIO`); if the record already carries exactly this
type and count nothing is staged; otherwise the record's type and
dirty-sector count are overwritten with the arguments. -/
def trans_mark_metadata_bucket_inner (u : AllocUnpacked)
    (data_type : BchDataType) (sectors bucket_size : ℕ) :
    Except ℤ AllocUnpacked :=
  if u.data_type ≠ .none ∧ u.data_type ≠ data_type then
    .error (-eio)
  else if bucket_size < u.dirty_sectors + sectors then
    .error (-eio)
  else if u.data_type = data_type ∧ u.dirty_sectors = sectors then
    .ok u
  else
    .ok { u with data_type := data_type, dirty_sectors := sectors }

/-- `bch2_trans_mark_metadata_bucket` (buckets.c): the transactional entry
point.  As written in the source it invokes the inner helper with
`BCH_DATA_journal` and `ca->mi.bucket_size` in place of its own `type` and
`sectors` arguments. -/
def bch2_trans_mark_metadata_bucket (bucket_size : ℕ) (u : AllocUnpacked)
    (_data_type : BchDataType) (_sectors : ℕ) : Except ℤ AllocUnpacked :=
  trans_mark_metadata_bucket_inner u .journal bucket_size bucket_size

/-! ## Helper lemmas -/

/-- A zeroed usage aggregate, used as a base for concrete instances. -/
def fsZero : FsUsage :=
  { hidden := 0, btree := 0, data := 0, cached := 0, reserved := 0,
    online_reserved := 0, nr_inodes := 0,
    persistent_reserved := fun _ => 0, replicas := fun _ => 0 }

/-! ## C6: reservation factor arithmetic -/

/-- Claim C6 as universally stated is false: `avail_factor` is computed in
`u64` arithmetic, so at `r = 2^58` the shift `r << 6` wraps to zero and the
result is `0`, not `⌊r·64/65⌋`. -/
theorem avail_factor_wraps_at_2_pow_58 :
    avail_factor (2 ^ 58) = 0 ∧ 2 ^ 58 * 64 / 65 = 283796062672454640 ∧
    avail_factor (2 ^ 58) ≠ 2 ^ 58 * 64 / 65 := by
  refine ⟨by decide, by decide, by decide⟩

/-- Claim C6 (amended): for sector counts below the `u64` wraparound
threshold `2^58`, `reserve_factor r = r + ⌈r/64⌉` (the ceiling written as
`(r + 63) / 64`) and `avail_factor r = ⌊r·64/65⌋`; in particular
`reserve_factor 1000 = 1016`. -/
theorem reserve_avail_factor_eq (r : ℕ) (h : r < 2 ^ 58) :
    reserve_factor r = r + (r + 63) / 64 ∧
    avail_factor r = r * 64 / 65 ∧
    reserve_factor 1000 = 1016 := by
  have h64 : (2:ℕ) ^ 58 ≤ 2 ^ 64 := by norm_num
  refine ⟨?_, ?_, by decide⟩
  · unfold reserve_factor round_up64 U64_MOD
    have h1 : ((r + 63) / 64) * 64 < 2 ^ 64 := by omega
    rw [Nat.mod_eq_of_lt h1, Nat.mul_div_cancel _ (by norm_num : 0 < 64)]
    have h2 : r + (r + 63) / 64 < 2 ^ 64 := by omega
    exact Nat.mod_eq_of_lt h2
  · unfold avail_factor U64_MOD
    have h1 : r * 64 < 2 ^ 64 := by
      calc r * 64 < 2 ^ 58 * 64 := by omega
        _ = 2 ^ 64 := by norm_num
    rw [Nat.mod_eq_of_lt h1]

/-- Witness for the amended C6 at `r = 1000`. -/
theorem reserve_avail_factor_eq_witness :
    reserve_factor 1000 = 1000 + (1000 + 63) / 64 ∧
    avail_factor 1000 = 1000 * 64 / 65 ∧
    reserve_factor 1000 = 1016 :=
  reserve_avail_factor_eq 1000 (by norm_num)

/-! ## C10: `bch2_trans_mark_metadata_bucket` ignores its arguments -/

/-- Claim C10: `bch2_trans_mark_metadata_bucket` stages the same
allocation-record update whatever data type and sector count the caller
supplies (both arguments are ignored), and any staged record carries data
type journal and a dirty-sector count equal to the device's full bucket
size. -/
theorem trans_mark_metadata_bucket_ignores_args (bucket_size : ℕ)
    (u u' : AllocUnpacked) (t t' : BchDataType) (s s' : ℕ)
    (h : bch2_trans_mark_metadata_bucket bucket_size u t s = .ok u') :
    bch2_trans_mark_metadata_bucket bucket_size u t s =
      bch2_trans_mark_metadata_bucket bucket_size u t' s' ∧
    u'.data_type = .journal ∧ u'.dirty_sectors = bucket_size := by
  refine ⟨rfl, ?_⟩
  unfold bch2_trans_mark_metadata_bucket trans_mark_metadata_bucket_inner at h
  split_ifs at h with h1 h2 h3
  · cases h
    exact ⟨h3.1, by omega⟩
  · cases h
    exact ⟨rfl, rfl⟩

/-- Witness for C10: marking a fresh bucket of size 4096 with arguments
`(sb, 100)` stages a `(journal, 4096)` record. -/
theorem trans_mark_metadata_bucket_ignores_args_witness :
    bch2_trans_mark_metadata_bucket 4096 ⟨5, .none, 0, 0⟩ .sb 100 =
      bch2_trans_mark_metadata_bucket 4096 ⟨5, .none, 0, 0⟩ .user 7 ∧
    (⟨5, .journal, 4096, 0⟩ : AllocUnpacked).data_type = .journal ∧
    (⟨5, .journal, 4096, 0⟩ : AllocUnpacked).dirty_sectors = 4096 :=
  trans_mark_metadata_bucket_ignores_args 4096 ⟨5, .none, 0, 0⟩
    ⟨5, .journal, 4096, 0⟩ .sb .user 100 7 rfl

/-! ## C2: `bch2_fs_usage_apply` overcommit handling -/

/-- Claim C2: if the applied delta's increase of data plus reserved sectors
exceeds the caller's reservation, the excess is subtracted from the global
`sectors_available` counter, the warning fires, and `-1` is returned;
otherwise a positive increase within the reservation is debited exactly
from the reservation's remaining sectors and from `online_reserved`, with
no warning, no error, and `sectors_available` untouched. -/
theorem fs_usage_apply_overcommit (fs : FsUsage) (res : DiskReservation)
    (avail : ℤ) :
    (res.sectors < fs.data + fs.reserved →
      (bch2_fs_usage_apply fs (some res) avail).ret = -1 ∧
      (bch2_fs_usage_apply fs (some res) avail).warned = true ∧
      (bch2_fs_usage_apply fs (some res) avail).sectors_available =
        avail - (fs.data + fs.reserved - res.sectors)) ∧
    (0 < fs.data + fs.reserved → fs.data + fs.reserved ≤ res.sectors →
      (bch2_fs_usage_apply fs (some res) avail).ret = 0 ∧
      (bch2_fs_usage_apply fs (some res) avail).warned = false ∧
      (bch2_fs_usage_apply fs (some res) avail).sectors_available = avail ∧
      (bch2_fs_usage_apply fs (some res) avail).disk_res =
        some ⟨res.sectors - (fs.data + fs.reserved)⟩ ∧
      (bch2_fs_usage_apply fs (some res) avail).fs.online_reserved =
        fs.online_reserved - (fs.data + fs.reserved)) := by
  constructor
  · intro hover
    unfold bch2_fs_usage_apply
    simp only
    split_ifs with h1 h2 <;> simp_all
  · intro hpos hin
    unfold bch2_fs_usage_apply
    simp only
    split_ifs with h1 h2 <;> simp_all <;> omega

/-- Witness for C2: a 300-sector increase against a 1000-sector
reservation. -/
theorem fs_usage_apply_overcommit_witness :
    (bch2_fs_usage_apply { fsZero with data := 300 } (some ⟨1000⟩) 5000).ret = 0 ∧
    (bch2_fs_usage_apply { fsZero with data := 300 } (some ⟨1000⟩) 5000).warned = false ∧
    (bch2_fs_usage_apply { fsZero with data := 300 } (some ⟨1000⟩) 5000).sectors_available = 5000 ∧
    (bch2_fs_usage_apply { fsZero with data := 300 } (some ⟨1000⟩) 5000).disk_res =
      some ⟨1000 - (300 + 0)⟩ ∧
    (bch2_fs_usage_apply { fsZero with data := 300 } (some ⟨1000⟩) 5000).fs.online_reserved =
      0 - (300 + 0) :=
  (fs_usage_apply_overcommit { fsZero with data := 300 } ⟨1000⟩ 5000).2
    (by decide) (by decide)

/-! ## C7: disk reservation grant / release -/

/-- Claim C7 as stated is false: granting 500 sectors from a state whose
per-core cache is empty takes the refill path, which moves
`500 + SECTORS_CACHE = 1524` sectors from the global `sectors_available`
counter into the per-core cache; after releasing the reservation
`online_reserved` is back at 0 but `sectors_available` is 8476, not the
10000 it held before the grant. -/
theorem reservation_refill_changes_sectors_available :
    (bch2_disk_reservation_put
        (bch2_disk_reservation_add ⟨0, 10000, 0, 0⟩ 500 false 0).2).online_reserved = 0 ∧
    (bch2_disk_reservation_put
        (bch2_disk_reservation_add ⟨0, 10000, 0, 0⟩ 500 false 0).2).res_sectors = 0 ∧
    (bch2_disk_reservation_put
        (bch2_disk_reservation_add ⟨0, 10000, 0, 0⟩ 500 false 0).2).sectors_available = 8476 ∧
    (8476 : ℕ) ≠ 10000 := by
  refine ⟨by decide, by decide, by decide, by decide⟩

/-- Claim C7 (amended): a successful grant of `n` sectors adds exactly `n`
to `online_reserved` and to the caller's ticket; releasing subtracts
exactly the sectors still held and zeroes the ticket, so a fresh
grant-then-release round-trip returns `online_reserved` to its pre-grant
value; and `sectors_available` is unchanged by the round-trip precisely
when the per-core cache covers the request (otherwise the refill moves
sectors from the global counter into the per-core cache). -/
theorem reservation_grant_release (st : ResState) (n : ℕ) (nofail : Bool)
    (free : ℕ)
    (hgrant : (bch2_disk_reservation_add st n nofail free).1 = 0) :
    ((bch2_disk_reservation_add st n nofail free).2.online_reserved =
      st.online_reserved + n) ∧
    ((bch2_disk_reservation_add st n nofail free).2.res_sectors =
      st.res_sectors + n) ∧
    ((bch2_disk_reservation_put
        (bch2_disk_reservation_add st n nofail free).2).online_reserved =
      (bch2_disk_reservation_add st n nofail free).2.online_reserved -
        (bch2_disk_reservation_add st n nofail free).2.res_sectors) ∧
    ((bch2_disk_reservation_put
        (bch2_disk_reservation_add st n nofail free).2).res_sectors = 0) ∧
    (st.res_sectors = 0 →
      (bch2_disk_reservation_put
          (bch2_disk_reservation_add st n nofail free).2).online_reserved =
        st.online_reserved) ∧
    (n ≤ st.pcpu_sectors_available →
      (bch2_disk_reservation_put
          (bch2_disk_reservation_add st n nofail free).2).sectors_available =
        st.sectors_available) := by
  have hput1 : ∀ x : ResState, (bch2_disk_reservation_put x).online_reserved
      = x.online_reserved - x.res_sectors := fun _ => rfl
  have hput2 : ∀ x : ResState, (bch2_disk_reservation_put x).res_sectors = 0 :=
    fun _ => rfl
  have hput3 : ∀ x : ResState, (bch2_disk_reservation_put x).sectors_available
      = x.sectors_available := fun _ => rfl
  have key : (bch2_disk_reservation_add st n nofail free).2.online_reserved
        = st.online_reserved + n ∧
      (bch2_disk_reservation_add st n nofail free).2.res_sectors
        = st.res_sectors + n := by
    unfold bch2_disk_reservation_add at hgrant ⊢
    split_ifs at hgrant ⊢ <;> simp_all
  have fast : n ≤ st.pcpu_sectors_available →
      (bch2_disk_reservation_add st n nofail free).2.sectors_available
        = st.sectors_available := by
    intro h
    unfold bch2_disk_reservation_add
    rw [if_pos h]
  refine ⟨key.1, key.2, hput1 _, hput2 _, ?_, ?_⟩
  · intro h
    rw [hput1, key.1, key.2, h]
    push_cast
    ring
  · intro h
    rw [hput3, fast h]

/-- Witness for the amended C7: a 500-sector grant served from a per-core
cache of 600 sectors, then released. -/
theorem reservation_grant_release_witness :
    ((bch2_disk_reservation_add ⟨600, 10000, 0, 0⟩ 500 false 0).2.online_reserved =
      (0:ℤ) + 500) ∧
    ((bch2_disk_reservation_add ⟨600, 10000, 0, 0⟩ 500 false 0).2.res_sectors =
      0 + 500) ∧
    ((bch2_disk_reservation_put
        (bch2_disk_reservation_add ⟨600, 10000, 0, 0⟩ 500 false 0).2).res_sectors = 0) ∧
    ((bch2_disk_reservation_put
        (bch2_disk_reservation_add ⟨600, 10000, 0, 0⟩ 500 false 0).2).online_reserved =
      (0:ℤ)) ∧
    ((bch2_disk_reservation_put
        (bch2_disk_reservation_add ⟨600, 10000, 0, 0⟩ 500 false 0).2).sectors_available =
      10000) :=
  ⟨(reservation_grant_release ⟨600, 10000, 0, 0⟩ 500 false 0 (by decide)).1,
   (reservation_grant_release ⟨600, 10000, 0, 0⟩ 500 false 0 (by decide)).2.1,
   (reservation_grant_release ⟨600, 10000, 0, 0⟩ 500 false 0 (by decide)).2.2.2.1,
   (reservation_grant_release ⟨600, 10000, 0, 0⟩ 500 false 0 (by decide)).2.2.2.2.1 rfl,
   (reservation_grant_release ⟨600, 10000, 0, 0⟩ 500 false 0 (by decide)).2.2.2.2.2
     (by decide)⟩

/-! ## `mark_pointer` helper lemmas -/

/-- A rejected pointer-mark leaves the bucket untouched. -/
theorem mark_pointer_fail (g : BucketState) (c : Bool) (pg : ℕ) (δ : ℤ)
    (pdt : BchDataType) (h : (mark_pointer g c pg δ pdt).1 ≠ 0) :
    (mark_pointer g c pg δ pdt).2 = g := by
  unfold mark_pointer at h ⊢
  by_cases hret : check_bucket_ref c pg δ pdt g.gen g.data_type
      g.dirty_sectors g.cached_sectors = 0
  · simp [hret] at h
  · simp [hret]

/-- On `check_bucket_ref` success, the targeted sector counter plus the
delta lies in `[0, U16_MAX]` (given an in-range starting counter and a
delta of magnitude below `2^31` — the region where the C's `(unsigned)`
cast of the 64-bit sum is an exact range check). -/
theorem check_bucket_ref_ok_bound (g : BucketState) (c : Bool) (pg : ℕ)
    (δ : ℤ) (pdt : BchDataType)
    (hd : g.dirty_sectors ≤ U16_MAX) (hc : g.cached_sectors ≤ U16_MAX)
    (hδ : δ.natAbs < 2 ^ 31)
    (hret : check_bucket_ref c pg δ pdt g.gen g.data_type
      g.dirty_sectors g.cached_sectors = 0) :
    0 ≤ ((if !c then g.dirty_sectors else g.cached_sectors) : ℤ) + δ ∧
    ((if !c then g.dirty_sectors else g.cached_sectors) : ℤ) + δ ≤ (U16_MAX : ℕ) := by
  unfold check_bucket_ref at hret
  split_ifs at hret <;> simp_all [eio, U16_MAX] <;> omega

/-- A successful pointer-mark with a delta of magnitude below `2^31`
changes the targeted counter by exactly the delta (no truncation) and
leaves the other counter alone; the result also stays within
`[0, U16_MAX]`. -/
theorem mark_pointer_ok (g : BucketState) (c : Bool) (pg : ℕ) (δ : ℤ)
    (pdt : BchDataType)
    (hd : g.dirty_sectors ≤ U16_MAX) (hc : g.cached_sectors ≤ U16_MAX)
    (hδ : δ.natAbs < 2 ^ 31)
    (h : (mark_pointer g c pg δ pdt).1 = 0) :
    ((mark_pointer g c pg δ pdt).2.dirty_sectors : ℤ)
      = g.dirty_sectors + (if c then 0 else δ) ∧
    ((mark_pointer g c pg δ pdt).2.cached_sectors : ℤ)
      = g.cached_sectors + (if c then δ else 0) ∧
    (mark_pointer g c pg δ pdt).2.dirty_sectors ≤ U16_MAX ∧
    (mark_pointer g c pg δ pdt).2.cached_sectors ≤ U16_MAX := by
  by_cases hret : check_bucket_ref c pg δ pdt g.gen g.data_type
      g.dirty_sectors g.cached_sectors = 0
  · have hbound := check_bucket_ref_ok_bound g c pg δ pdt hd hc hδ hret
    have hmp : mark_pointer g c pg δ pdt = (0, mark_pointer_apply g c δ pdt) := by
      unfold mark_pointer
      simp [hret]
    rw [hmp]
    unfold mark_pointer_apply u16_add
    simp only [U16_MAX] at hbound hd hc ⊢
    cases c <;> simp_all <;> omega
  · unfold mark_pointer at h
    simp [hret] at h

/-! ## C5: the capacity invariant -/

/-- Claim C5 as stated is false: pointer marking validates sector counts
only against `U16_MAX`, not against the bucket's physical capacity.  On a
bucket of capacity 8 sectors with zero counts (so the invariant holds
before), a 10-sector dirty mark is accepted and leaves
`dirty_sectors + cached_sectors = 10 > 8`. -/
theorem mark_pointer_exceeds_bucket_capacity :
    (mark_pointer ⟨0, .none, 0, 0⟩ false 0 10 .user).1 = 0 ∧
    (mark_pointer ⟨0, .none, 0, 0⟩ false 0 10 .user).2.dirty_sectors +
      (mark_pointer ⟨0, .none, 0, 0⟩ false 0 10 .user).2.cached_sectors = 10 ∧
    0 + 0 ≤ 8 ∧ ¬(10 ≤ 8) := by
  refine ⟨by decide, by decide, by decide, by decide⟩

/-- Claim C5 (amended): pointer marking preserves only the per-counter
bound `≤ U16_MAX` on each of `dirty_sectors` and `cached_sectors`; the
bucket-capacity bound is enforced only on the transactional metadata
path, where a successfully staged allocation record always carries
`dirty_sectors ≤ bucket_size` and an untouched cached count. -/
theorem mark_preserves_counter_bounds (u u' : AllocUnpacked)
    (dt : BchDataType) (s bs : ℕ)
    (h : trans_mark_metadata_bucket_inner u dt s bs = .ok u')
    (g : BucketState) (c : Bool) (pg : ℕ) (δ : ℤ) (pdt : BchDataType)
    (hd : g.dirty_sectors ≤ U16_MAX) (hc : g.cached_sectors ≤ U16_MAX) :
    u'.dirty_sectors ≤ bs ∧ u'.cached_sectors = u.cached_sectors ∧
    (mark_pointer g c pg δ pdt).2.dirty_sectors ≤ U16_MAX ∧
    (mark_pointer g c pg δ pdt).2.cached_sectors ≤ U16_MAX := by
  have hu16 : ∀ x e, u16_add x e ≤ U16_MAX := by
    intro x e
    unfold u16_add U16_MAX
    have := Int.emod_nonneg ((x : ℤ) + e) (by norm_num : (2 ^ 16 : ℤ) ≠ 0)
    have := Int.emod_lt_of_pos ((x : ℤ) + e) (by norm_num : (0 : ℤ) < 2 ^ 16)
    omega
  have htrans : u'.dirty_sectors ≤ bs ∧ u'.cached_sectors = u.cached_sectors := by
    unfold trans_mark_metadata_bucket_inner at h
    split_ifs at h with hA hB hC
    · cases h
      exact ⟨by omega, rfl⟩
    · cases h
      refine ⟨?_, rfl⟩
      show s ≤ bs
      omega
  refine ⟨htrans.1, htrans.2, ?_⟩
  by_cases hret : check_bucket_ref c pg δ pdt g.gen g.data_type
      g.dirty_sectors g.cached_sectors = 0
  · have hmp : mark_pointer g c pg δ pdt = (0, mark_pointer_apply g c δ pdt) := by
      unfold mark_pointer
      simp [hret]
    rw [hmp]
    unfold mark_pointer_apply
    cases c <;>
      simp only [Bool.not_false, Bool.not_true, ite_true, ite_false] <;>
      exact ⟨by first | exact hu16 _ _ | exact hd,
             by first | exact hu16 _ _ | exact hc⟩
  · have hne : (mark_pointer g c pg δ pdt).1 ≠ 0 := by
      unfold mark_pointer
      simp [hret]
    rw [mark_pointer_fail g c pg δ pdt hne]
    exact ⟨hd, hc⟩

/-- Witness for the amended C5: staging `(journal, 100)` into an empty
4096-sector bucket record, alongside a pointer mark on a bucket holding
(7, 3) sectors. -/
theorem mark_preserves_counter_bounds_witness :
    (⟨5, .journal, 100, 0⟩ : AllocUnpacked).dirty_sectors ≤ 4096 ∧
    (⟨5, .journal, 100, 0⟩ : AllocUnpacked).cached_sectors =
      (⟨5, .none, 0, 0⟩ : AllocUnpacked).cached_sectors ∧
    (mark_pointer ⟨0, .user, 7, 3⟩ false 0 1 .user).2.dirty_sectors ≤ U16_MAX ∧
    (mark_pointer ⟨0, .user, 7, 3⟩ false 0 1 .user).2.cached_sectors ≤ U16_MAX :=
  mark_preserves_counter_bounds ⟨5, .none, 0, 0⟩ ⟨5, .journal, 100, 0⟩
    .journal 100 4096 rfl ⟨0, .user, 7, 3⟩ false 0 1 .user
    (by decide) (by decide)

/-! ## C4: sector counters track the sum of applied deltas -/

/-- Structural invariant of `run_mark_ops`: starting from in-range
counters, the final dirty/cached counts are the initial counts plus the
sums of the applied deltas, and remain within `[0, U16_MAX]` (deltas of
magnitude below `2^31`). -/
theorem run_mark_ops_spec (ops : List MarkOp) (g : BucketState)
    (hd : g.dirty_sectors ≤ U16_MAX) (hc : g.cached_sectors ≤ U16_MAX)
    (h : ∀ op ∈ ops, op.delta.natAbs < 2 ^ 31) :
    ((run_mark_ops g ops).1.dirty_sectors : ℤ)
      = g.dirty_sectors + (run_mark_ops g ops).2.1 ∧
    ((run_mark_ops g ops).1.cached_sectors : ℤ)
      = g.cached_sectors + (run_mark_ops g ops).2.2 ∧
    (run_mark_ops g ops).1.dirty_sectors ≤ U16_MAX ∧
    (run_mark_ops g ops).1.cached_sectors ≤ U16_MAX := by
  induction ops generalizing g with
  | nil =>
    exact ⟨by simp [run_mark_ops], by simp [run_mark_ops],
           by simpa [run_mark_ops] using hd, by simpa [run_mark_ops] using hc⟩
  | cons op rest ih =>
    by_cases hret : (mark_pointer g op.cached op.gen op.delta op.data_type).1 = 0
    · have hop := h op (List.mem_cons_self op rest)
      have hmk := mark_pointer_ok g op.cached op.gen op.delta op.data_type
        hd hc hop hret
      have ihh := ih (mark_pointer g op.cached op.gen op.delta op.data_type).2
        hmk.2.2.1 hmk.2.2.2 (fun o ho => h o (List.mem_cons_of_mem _ ho))
      simp only [run_mark_ops, if_pos hret]
      refine ⟨?_, ?_, ihh.2.2.1, ihh.2.2.2⟩
      · rw [ihh.1, hmk.1]
        ring
      · rw [ihh.2.1, hmk.2.1]
        ring
    · have hfail := mark_pointer_fail g op.cached op.gen op.delta
        op.data_type hret
      simp only [run_mark_ops, if_neg hret, hfail]
      exact ih g hd hc (fun o ho => h o (List.mem_cons_of_mem _ ho))

/-- Claim C4 as stated is false without a bound on the deltas: the C
overflow check casts the 64-bit sum to 32 bits, so a single applied delta
of `2^32` dirty sectors passes validation and wraps the `u16` counter to
`0`, while the sum of applied deltas clamped at the ceiling is `65535`. -/
theorem mark_sequence_wraps_at_2_pow_32 :
    (run_mark_ops ⟨0, .none, 0, 0⟩ [⟨false, 0, .user, 2 ^ 32⟩]).2.1 = 2 ^ 32 ∧
    ((run_mark_ops ⟨0, .none, 0, 0⟩ [⟨false, 0, .user, 2 ^ 32⟩]).1.dirty_sectors : ℤ) = 0 ∧
    min ((2 : ℤ) ^ 32) ((U16_MAX : ℕ) : ℤ) = 65535 ∧ (0 : ℤ) ≠ 65535 := by
  refine ⟨by decide, by decide, by decide, by decide⟩

/-- Claim C4 (amended): for every sequence of pointer-mark operations on
one bucket whose deltas have magnitude below `2^31` (the region where the
32-bit-cast overflow check is exact), the final `dirty_sectors` and
`cached_sectors` of a bucket that started empty equal the sums of the
applied signed deltas routed to each counter; those sums stay within
`[0, U16_MAX]`, so they equal their own clamp at the overflow ceiling and
are never negative. -/
theorem mark_sequence_deltas (ops : List MarkOp) (g0 : ℕ) (dt0 : BchDataType)
    (h : ∀ op ∈ ops, op.delta.natAbs < 2 ^ 31) :
    ((run_mark_ops ⟨g0, dt0, 0, 0⟩ ops).1.dirty_sectors : ℤ)
      = (run_mark_ops ⟨g0, dt0, 0, 0⟩ ops).2.1 ∧
    ((run_mark_ops ⟨g0, dt0, 0, 0⟩ ops).1.cached_sectors : ℤ)
      = (run_mark_ops ⟨g0, dt0, 0, 0⟩ ops).2.2 ∧
    ((run_mark_ops ⟨g0, dt0, 0, 0⟩ ops).1.dirty_sectors : ℤ)
      = min ((run_mark_ops ⟨g0, dt0, 0, 0⟩ ops).2.1) ((U16_MAX : ℕ) : ℤ) ∧
    ((run_mark_ops ⟨g0, dt0, 0, 0⟩ ops).1.cached_sectors : ℤ)
      = min ((run_mark_ops ⟨g0, dt0, 0, 0⟩ ops).2.2) ((U16_MAX : ℕ) : ℤ) ∧
    0 ≤ (run_mark_ops ⟨g0, dt0, 0, 0⟩ ops).2.1 ∧
    0 ≤ (run_mark_ops ⟨g0, dt0, 0, 0⟩ ops).2.2 := by
  have hs := run_mark_ops_spec ops ⟨g0, dt0, 0, 0⟩ (by simp [U16_MAX])
    (by simp [U16_MAX]) h
  have e1 : ((run_mark_ops ⟨g0, dt0, 0, 0⟩ ops).1.dirty_sectors : ℤ)
      = (run_mark_ops ⟨g0, dt0, 0, 0⟩ ops).2.1 := by
    have := hs.1
    simpa using this
  have e2 : ((run_mark_ops ⟨g0, dt0, 0, 0⟩ ops).1.cached_sectors : ℤ)
      = (run_mark_ops ⟨g0, dt0, 0, 0⟩ ops).2.2 := by
    have := hs.2.1
    simpa using this
  have b1 := hs.2.2.1
  have b2 := hs.2.2.2
  refine ⟨e1, e2, ?_, ?_, ?_, ?_⟩ <;> simp only [U16_MAX] at b1 b2 ⊢ <;> omega

/-- Witness for the amended C4: a +50 dirty mark then a −20 dirty mark on
a fresh bucket. -/
theorem mark_sequence_deltas_witness :
    ((run_mark_ops ⟨0, .none, 0, 0⟩
        [⟨false, 0, .user, 50⟩, ⟨false, 0, .user, -20⟩]).1.dirty_sectors : ℤ)
      = (run_mark_ops ⟨0, .none, 0, 0⟩
        [⟨false, 0, .user, 50⟩, ⟨false, 0, .user, -20⟩]).2.1 ∧
    ((run_mark_ops ⟨0, .none, 0, 0⟩
        [⟨false, 0, .user, 50⟩, ⟨false, 0, .user, -20⟩]).1.cached_sectors : ℤ)
      = (run_mark_ops ⟨0, .none, 0, 0⟩
        [⟨false, 0, .user, 50⟩, ⟨false, 0, .user, -20⟩]).2.2 ∧
    ((run_mark_ops ⟨0, .none, 0, 0⟩
        [⟨false, 0, .user, 50⟩, ⟨false, 0, .user, -20⟩]).1.dirty_sectors : ℤ)
      = min ((run_mark_ops ⟨0, .none, 0, 0⟩
        [⟨false, 0, .user, 50⟩, ⟨false, 0, .user, -20⟩]).2.1) ((U16_MAX : ℕ) : ℤ) ∧
    ((run_mark_ops ⟨0, .none, 0, 0⟩
        [⟨false, 0, .user, 50⟩, ⟨false, 0, .user, -20⟩]).1.cached_sectors : ℤ)
      = min ((run_mark_ops ⟨0, .none, 0, 0⟩
        [⟨false, 0, .user, 50⟩, ⟨false, 0, .user, -20⟩]).2.2) ((U16_MAX : ℕ) : ℤ) ∧
    0 ≤ (run_mark_ops ⟨0, .none, 0, 0⟩
        [⟨false, 0, .user, 50⟩, ⟨false, 0, .user, -20⟩]).2.1 ∧
    0 ≤ (run_mark_ops ⟨0, .none, 0, 0⟩
        [⟨false, 0, .user, 50⟩, ⟨false, 0, .user, -20⟩]).2.2 :=
  mark_sequence_deltas [⟨false, 0, .user, 50⟩, ⟨false, 0, .user, -20⟩] 0 .none
    (by decide)

/-! ## C8: middle-split overwrite arithmetic -/

/-- With equal compressed and uncompressed sizes the scaling is the
identity. -/
theorem disk_sectors_scaled_self (n x : ℕ) (hn : 0 < n) :
    disk_sectors_scaled n n x = (x : ℤ) := by
  unfold disk_sectors_scaled
  have hdiv : (x * n + n - 1) / n = x := by
    have h1 : x * n + n - 1 = (n - 1) + x * n := by omega
    rw [h1, Nat.add_mul_div_right _ _ hn, Nat.div_eq_of_lt (by omega)]
    omega
  exact_mod_cast hdiv

/-- Claim C8 as stated is false: a middle-split overwrite of an extent of
length 10 at offset 3 by a new extent of length 4 produces the two
key-level deltas `+4` (insert) and `−4` (overwrite-split), whose sector
magnitudes sum to `8 = 2·L2`, not to `L2 = 4`. -/
theorem middle_split_magnitudes_counterexample :
    mark_update_extent_deltas 3 4 0 10 = [(0, 4, false), (3, -4, true)] ∧
    ((mark_update_extent_deltas 3 4 0 10).map (fun t => t.2.1.natAbs)).sum = 8 ∧
    (8 : ℕ) ≠ 4 := by
  refine ⟨by decide, by decide, by decide⟩

/-- Claim C8 (amended): a middle-split overwrite of an extent of length L
at interior offset O by a new extent of length L2 produces exactly two
key-level deltas, `+L2` for the insert and `−L2` for the overwritten old
key — each of magnitude L2 and with net sum zero, so no sectors are
double-counted; for an unscaled pointer the split-case per-pointer
disk-sector delta evaluates to exactly `−L2`; and in general the split
delta is minus the scaled old size, plus the scaled offset, plus the
scaled remainder (old size minus offset plus the signed delta). -/
theorem middle_split_deltas (new_start new_len old_start old_len n : ℕ)
    (h1 : old_start < new_start)
    (h2 : new_start + new_len < old_start + old_len)
    (hn : 0 < n) :
    mark_update_extent_deltas new_start new_len old_start old_len =
      [(0, (new_len : ℤ), false),
       (new_start - old_start, -(new_len : ℤ), true)] ∧
    ((mark_update_extent_deltas new_start new_len old_start old_len).map
      (fun t => t.2.1)).sum = 0 ∧
    ((mark_update_extent_deltas new_start new_len old_start old_len).map
      (fun t => t.2.1.natAbs)).sum = 2 * new_len ∧
    ptr_disk_sectors_delta_raw old_len (new_start - old_start)
        (-(new_len : ℤ)) true false n n = -(new_len : ℤ) ∧
    (∀ (old off : ℕ) (δ : ℤ) (nn d : ℕ),
      ptr_disk_sectors_delta_raw old off δ true false nn d =
        -(disk_sectors_scaled nn d old) + disk_sectors_scaled nn d off +
          disk_sectors_scaled nn d ((old : ℤ) - off + δ).toNat) := by
  have hmid : bch2_extent_overlap new_start (new_start + new_len)
      old_start (old_start + old_len) = .middle := by
    unfold bch2_extent_overlap
    rw [if_neg (by omega), if_neg (by omega)]
  have hdeltas : mark_update_extent_deltas new_start new_len old_start old_len =
      [(0, (new_len : ℤ), false),
       (new_start - old_start, -(new_len : ℤ), true)] := by
    unfold mark_update_extent_deltas mark_update_overwrite_delta
    rw [hmid]
  refine ⟨hdeltas, ?_, ?_, ?_, ?_⟩
  · rw [hdeltas]
    simp
  · rw [hdeltas]
    simp [two_mul]
  · unfold ptr_disk_sectors_delta_raw
    rw [if_pos rfl]
    rw [disk_sectors_scaled_self _ _ hn, disk_sectors_scaled_self _ _ hn,
        disk_sectors_scaled_self _ _ hn]
    omega
  · intro old off δ nn d
    rfl

/-- Witness for the amended C8 at `L = 10`, `O = 3`, `L2 = 4`, unscaled. -/
theorem middle_split_deltas_witness :
    mark_update_extent_deltas 3 4 0 10 =
      [(0, (4 : ℤ), false), (3 - 0, -(4 : ℤ), true)] ∧
    ((mark_update_extent_deltas 3 4 0 10).map (fun t => t.2.1)).sum = 0 ∧
    ((mark_update_extent_deltas 3 4 0 10).map (fun t => t.2.1.natAbs)).sum = 2 * 4 ∧
    ptr_disk_sectors_delta_raw 10 (3 - 0) (-(4 : ℤ)) true false 1 1 = -(4 : ℤ) ∧
    (∀ (old off : ℕ) (δ : ℤ) (nn d : ℕ),
      ptr_disk_sectors_delta_raw old off δ true false nn d =
        -(disk_sectors_scaled nn d old) + disk_sectors_scaled nn d off +
          disk_sectors_scaled nn d ((old : ℤ) - off + δ).toNat) :=
  middle_split_deltas 3 4 0 10 1 (by decide) (by decide) (by decide)

/-! ## C9: stripe block marking -/

/-- Counting nonzero entries via the C-style accumulate loop equals
`countP`. -/
theorem foldl_nonzero_count (f : ℕ → ℤ) :
    ∀ (l : List ℕ) (a : ℕ),
      l.foldl (fun acc i => acc + if f i ≠ 0 then 1 else 0) a
        = a + l.countP (fun i => decide (f i ≠ 0)) := by
  intro l
  induction l with
  | nil =>
    intro a
    simp
  | cons x xs ih =>
    intro a
    simp only [List.foldl_cons, List.countP_cons]
    rw [ih]
    by_cases hx : f x ≠ 0 <;> simp [hx] <;> omega

/-- Claim C9: marking a stripe block reference fails with `-EIO` (and
modifies nothing, the error carrying no state) when the stripe is missing
or dead; on a live stripe the named block's counter absorbs exactly the
signed delta, other blocks are untouched, the non-empty-block count is
recomputed to the number of blocks with nonzero counts, and the reclaim
heap is re-sorted exactly when that count changed and GC mode is off. -/
theorem mark_stripe_ptr_spec (ledger : List ReplicasEntry)
    (stripes : ℕ → Option StripeM) (fs : FsUsage) (idx block : ℕ)
    (dt : BchDataType) (sectors : ℤ) (gc : Bool) :
    ((stripes idx = none ∨ ∃ m, stripes idx = some m ∧ m.alive = false) →
      bch2_mark_stripe_ptr ledger stripes fs idx block dt sectors gc
        = .error (-eio)) ∧
    (∀ m, stripes idx = some m → m.alive = true →
      ∃ out, bch2_mark_stripe_ptr ledger stripes fs idx block dt sectors gc
          = .ok out ∧
        ∃ m', out.stripes idx = some m' ∧
          m'.block_sectors block = m.block_sectors block + sectors ∧
          (∀ j, j ≠ block → m'.block_sectors j = m.block_sectors j) ∧
          m'.blocks_nonempty = (List.range m.nr_blocks).countP
            (fun i => decide (m'.block_sectors i ≠ 0)) ∧
          out.heap_updated
            = (decide (m.blocks_nonempty ≠ m'.blocks_nonempty) && !gc) ∧
          (∀ j, j ≠ idx → out.stripes j = stripes j)) := by
  constructor
  · rintro (hnone | ⟨m, hm, hdead⟩)
    · unfold bch2_mark_stripe_ptr
      rw [hnone]
    · unfold bch2_mark_stripe_ptr
      rw [hm]
      simp [hdead]
  · intro m hm halive
    refine ⟨⟨fun j => if j = idx then some
        { m with
          block_sectors := bump m.block_sectors block sectors,
          blocks_nonempty := (List.range m.nr_blocks).foldl
            (fun acc i => acc + if bump m.block_sectors block sectors i ≠ 0
              then 1 else 0) 0 }
      else stripes j,
      (update_replicas ledger fs { m.r with data_type := dt } sectors).getD fs,
      decide (m.blocks_nonempty ≠ (List.range m.nr_blocks).foldl
        (fun acc i => acc + if bump m.block_sectors block sectors i ≠ 0
          then 1 else 0) 0) && !gc⟩, ?_, ?_⟩
    · unfold bch2_mark_stripe_ptr
      rw [hm]
      simp [halive]
    · refine ⟨{ m with
        block_sectors := bump m.block_sectors block sectors,
        blocks_nonempty := (List.range m.nr_blocks).foldl
          (fun acc i => acc + if bump m.block_sectors block sectors i ≠ 0
            then 1 else 0) 0 }, by simp, ?_, ?_, ?_, ?_, ?_⟩
      · simp [bump]
      · intro j hj
        simp [bump, hj]
      · simpa using foldl_nonzero_count (bump m.block_sectors block sectors)
          (List.range m.nr_blocks) 0
      · rfl
      · intro j hj
        simp [hj]

/-- A concrete live two-block stripe with empty blocks. -/
def stripeTwo : StripeM :=
  { alive := true, sectors := 100, algorithm := 0, nr_blocks := 2,
    nr_redundant := 1, block_sectors := fun _ => 0, blocks_nonempty := 0,
    r := { data_type := .user, nr_required := 1, devs := [0, 1] } }

/-- A concrete one-entry stripe table holding `stripeTwo` at index 0. -/
def stripesOne : ℕ → Option StripeM := fun j =>
  if j = 0 then some stripeTwo else none

/-- Witness for C9: marking block 1 of the live stripe at index 0 with +7
sectors. -/
theorem mark_stripe_ptr_spec_witness :
    ∃ out, bch2_mark_stripe_ptr [] stripesOne fsZero 0 1 .user 7 false
        = .ok out ∧
      ∃ m', out.stripes 0 = some m' ∧
        m'.block_sectors 1 = stripeTwo.block_sectors 1 + 7 ∧
        (∀ j, j ≠ 1 → m'.block_sectors j = stripeTwo.block_sectors j) ∧
        m'.blocks_nonempty = (List.range stripeTwo.nr_blocks).countP
          (fun i => decide (m'.block_sectors i ≠ 0)) ∧
        out.heap_updated
          = (decide (stripeTwo.blocks_nonempty ≠ m'.blocks_nonempty) && !false) ∧
        (∀ j, j ≠ 0 → out.stripes j = stripesOne j) :=
  (mark_stripe_ptr_spec [] stripesOne fsZero 0 1 .user 7 false).2
    stripeTwo rfl rfl

/-! ## C3: ternary bucket-reference validation -/

/-- Range and antisymmetry facts about the wrapping 8-bit signed
generation distance (for `u8` inputs). -/
theorem gen_cmp_facts (a b : ℕ) (ha : a < 256) (hb : b < 256) :
    (-128 ≤ gen_cmp a b ∧ gen_cmp a b ≤ 127) ∧
    (gen_cmp a b = 0 ↔ a = b) ∧
    (gen_cmp a b ≠ -128 → gen_cmp b a = -gen_cmp a b) := by
  unfold gen_cmp
  split_ifs <;>
    refine ⟨⟨by omega, by omega⟩, by omega, fun h => by omega⟩

/-- Claim C3 as stated is false: a pointer exactly one generation stale
need not yield the stale indicator — for a non-cached (dirty) pointer one
step behind the bucket (bucket gen 1, pointer gen 0) `check_bucket_ref`
returns the fatal `-EIO`, which is an error, not the distinct stale
result `1`. -/
theorem one_step_stale_dirty_is_fatal :
    check_bucket_ref false 0 0 .user 1 .none 0 0 = -eio ∧
    (-eio : ℤ) ≠ 1 ∧ (-eio : ℤ) < 0 := by
  refine ⟨by decide, by decide, by decide⟩

/-- Claim C3 (amended): bucket-reference validation is ternary — a pointer
generation newer than the bucket's is fatal (`-EIO`); older by more than
the staleness window is fatal; a *cached* pointer stale by any amount
within the window (one step included) yields the distinct stale indicator
`1`; a non-cached pointer even one step stale is fatal; and in the extent
marking loop a stale cached pointer contributes nothing — the loop state
passes through unchanged. -/
theorem check_bucket_ref_ternary (ledger : List ReplicasEntry) (c : Bool)
    (pg bg : ℕ) (δ : ℤ) (pdt bdt : BchDataType) (d cc : ℕ)
    (hpg : pg < 256) (hbg : bg < 256) :
    (gen_after pg bg = true →
      check_bucket_ref c pg δ pdt bg bdt d cc = -eio) ∧
    (BUCKET_GC_GEN_MAX < gen_cmp bg pg →
      check_bucket_ref c pg δ pdt bg bdt d cc = -eio) ∧
    (c = true → 0 < gen_cmp bg pg → gen_cmp bg pg ≤ BUCKET_GC_GEN_MAX →
      check_bucket_ref c pg δ pdt bg bdt d cc = 1) ∧
    (c = false → gen_cmp bg pg = 1 →
      check_bucket_ref c pg δ pdt bg bdt d cc = -eio) ∧
    (∀ (st : ExtentLoopState) (p : ExtentPtr) (offset : ℕ) (sectors : ℤ)
      (dtt : BchDataType) (s1 s2 gcb : Bool),
      p.cached = true → p.gen < 256 → (st.buckets p.dev).gen < 256 →
      0 < gen_cmp (st.buckets p.dev).gen p.gen →
      gen_cmp (st.buckets p.dev).gen p.gen ≤ BUCKET_GC_GEN_MAX →
      mark_extent_step ledger st p offset sectors dtt s1 s2 gcb = .ok st) := by
  have key : ∀ (c' : Bool) (pg' bg' : ℕ) (δ' : ℤ) (pdt' bdt' : BchDataType)
      (d' cc' : ℕ), pg' < 256 → bg' < 256 → c' = true →
      0 < gen_cmp bg' pg' → gen_cmp bg' pg' ≤ BUCKET_GC_GEN_MAX →
      check_bucket_ref c' pg' δ' pdt' bg' bdt' d' cc' = 1 := by
    intro c' pg' bg' δ' pdt' bdt' d' cc' hp hb hcc hpos hwin
    obtain ⟨hrange, hzero, hanti⟩ := gen_cmp_facts bg' pg' hb hp
    have hne : bg' ≠ pg' := fun he => by
      rw [hzero.2 he] at hpos
      exact lt_irrefl 0 hpos
    have hflip : gen_cmp pg' bg' = -gen_cmp bg' pg' := hanti (by omega)
    unfold check_bucket_ref
    rw [if_neg, if_neg (by omega), if_neg, if_pos hne]
    · simp [hcc]
    · simp only [gen_after, decide_eq_true_eq, decide_eq_false_iff_not]
      omega
  refine ⟨?_, ?_, key c pg bg δ pdt bdt d cc hpg hbg, ?_, ?_⟩
  · intro h
    unfold check_bucket_ref
    rw [if_pos h]
  · intro h
    obtain ⟨hrange, hzero, hanti⟩ := gen_cmp_facts bg pg hbg hpg
    have hflip : gen_cmp pg bg = -gen_cmp bg pg := hanti (by unfold BUCKET_GC_GEN_MAX at h; omega)
    unfold check_bucket_ref
    rw [if_neg, if_pos h]
    simp only [gen_after, decide_eq_true_eq]
    unfold BUCKET_GC_GEN_MAX at h
    omega
  · intro hcf hone
    obtain ⟨hrange, hzero, hanti⟩ := gen_cmp_facts bg pg hbg hpg
    have hne : bg ≠ pg := fun he => by
      rw [hzero.2 he] at hone
      norm_num at hone
    have hflip : gen_cmp pg bg = -gen_cmp bg pg := hanti (by omega)
    unfold check_bucket_ref
    rw [if_neg, if_neg (by unfold BUCKET_GC_GEN_MAX; omega), if_pos ⟨hne, by simp [hcf]⟩]
    simp only [gen_after, decide_eq_true_eq]
    omega
  · intro st p offset sectors dtt s1 s2 gcb hcached hp hb hpos hwin
    have hchk := key p.cached p.gen (st.buckets p.dev).gen
      (if dtt = .btree then sectors
        else ptr_disk_sectors_delta p offset sectors s1 s2) dtt
      (st.buckets p.dev).data_type (st.buckets p.dev).dirty_sectors
      (st.buckets p.dev).cached_sectors hp hb hcached hpos hwin
    have hmp : mark_pointer (st.buckets p.dev) p.cached p.gen
        (if dtt = .btree then sectors
          else ptr_disk_sectors_delta p offset sectors s1 s2) dtt
        = (1, st.buckets p.dev) := by
      unfold mark_pointer
      rw [hchk]
      simp
    have hbeq : (fun dv => if dv = p.dev then st.buckets p.dev
        else st.buckets dv) = st.buckets := by
      funext dv
      split_ifs with hdv
      · rw [hdv]
      · rfl
    unfold mark_extent_step
    rw [hcached] at hmp
    simp only [hcached, hmp, hbeq]
    norm_num

/-- Witness for the amended C3: bucket generation 5, cached pointer at
generation 3 (two steps stale, within the window), dirty pointer one step
stale at generation 4, on a one-pointer loop state. -/
theorem check_bucket_ref_ternary_witness :
    check_bucket_ref true 3 0 .user 5 .none 0 0 = 1 ∧
    check_bucket_ref false 4 0 .user 5 .none 0 0 = -eio :=
  ⟨(check_bucket_ref_ternary [] true 3 5 0 .user .none 0 0 (by norm_num)
      (by norm_num)).2.2.1 rfl (by decide) (by decide),
   (check_bucket_ref_ternary [] false 4 5 0 .user .none 0 0 (by norm_num)
      (by norm_num)).2.2.2.1 rfl (by decide)⟩

/-! ## C1: all-or-nothing replicas delta list application -/

/-- One (possibly failing) delta application, total via `getD`: exactly the
effect a successful `update_replicas` call has on the aggregate, and the
identity when the entry does not resolve. -/
def apply_delta (ledger : List ReplicasEntry) (fs : FsUsage)
    (a : ReplicasEntry × ℤ) : FsUsage :=
  (update_replicas ledger fs a.1 a.2).getD fs

/-- Apply a list of deltas in order. -/
def apply_list (ledger : List ReplicasEntry) (fs : FsUsage)
    (l : List (ReplicasEntry × ℤ)) : FsUsage :=
  l.foldl (apply_delta ledger) fs

/-- Field decomposition of `fs_usage_data_type_to_base`: additive on the
three base counters, identity elsewhere. -/
theorem dtb_fields (fs : FsUsage) (dt : BchDataType) (s : ℤ) :
    (fs_usage_data_type_to_base fs dt s).hidden = fs.hidden ∧
    (fs_usage_data_type_to_base fs dt s).btree
      = fs.btree + (if dt = .btree then s else 0) ∧
    (fs_usage_data_type_to_base fs dt s).data
      = fs.data + (if dt = .user ∨ dt = .parity then s else 0) ∧
    (fs_usage_data_type_to_base fs dt s).cached
      = fs.cached + (if dt = .cached then s else 0) ∧
    (fs_usage_data_type_to_base fs dt s).reserved = fs.reserved ∧
    (fs_usage_data_type_to_base fs dt s).online_reserved = fs.online_reserved ∧
    (fs_usage_data_type_to_base fs dt s).nr_inodes = fs.nr_inodes ∧
    (fs_usage_data_type_to_base fs dt s).persistent_reserved
      = fs.persistent_reserved ∧
    (fs_usage_data_type_to_base fs dt s).replicas = fs.replicas := by
  cases dt <;> simp [fs_usage_data_type_to_base]

/-- Pointwise additive updates at (possibly equal) indices commute. -/
theorem bump_comm (f : ℕ → ℤ) (i j : ℕ) (a b : ℤ) :
    bump (bump f i a) j b = bump (bump f j b) i a := by
  funext n
  unfold bump
  split_ifs <;> ring

/-- A pointwise additive update followed by its negation is the identity. -/
theorem bump_cancel (f : ℕ → ℤ) (i : ℕ) (a : ℤ) :
    bump (bump f i a) i (-a) = f := by
  funext n
  unfold bump
  split_ifs <;> ring

/-- Delta applications commute (each is the identity or an additive
update on disjoint-or-matching counters). -/
theorem apply_delta_comm (ledger : List ReplicasEntry) (fs : FsUsage)
    (x y : ReplicasEntry × ℤ) :
    apply_delta ledger (apply_delta ledger fs x) y
      = apply_delta ledger (apply_delta ledger fs y) x := by
  unfold apply_delta update_replicas
  cases hx : replicas_entry_idx ledger x.1 <;>
    cases hy : replicas_entry_idx ledger y.1 <;>
    simp only [hx, hy, Option.getD_some, Option.getD_none]
  ext <;>
    simp [(dtb_fields _ _ _).1, (dtb_fields _ _ _).2.1,
      (dtb_fields _ _ _).2.2.1, (dtb_fields _ _ _).2.2.2.1,
      (dtb_fields _ _ _).2.2.2.2.1, (dtb_fields _ _ _).2.2.2.2.2.1,
      (dtb_fields _ _ _).2.2.2.2.2.2.1, (dtb_fields _ _ _).2.2.2.2.2.2.2.1,
      (dtb_fields _ _ _).2.2.2.2.2.2.2.2, bump_comm] <;>
    first
      | ring1
      | (split_ifs <;> ring)

/-- Applying a delta and then its negation restores the aggregate. -/
theorem apply_delta_cancel (ledger : List ReplicasEntry) (fs : FsUsage)
    (a : ReplicasEntry × ℤ) :
    apply_delta ledger (apply_delta ledger fs a) (a.1, -a.2) = fs := by
  unfold apply_delta update_replicas
  cases hx : replicas_entry_idx ledger a.1 <;>
    simp only [hx, Option.getD_some, Option.getD_none]
  ext <;>
    simp [(dtb_fields _ _ _).1, (dtb_fields _ _ _).2.1,
      (dtb_fields _ _ _).2.2.1, (dtb_fields _ _ _).2.2.2.1,
      (dtb_fields _ _ _).2.2.2.2.1, (dtb_fields _ _ _).2.2.2.2.2.1,
      (dtb_fields _ _ _).2.2.2.2.2.2.1, (dtb_fields _ _ _).2.2.2.2.2.2.2.1,
      (dtb_fields _ _ _).2.2.2.2.2.2.2.2, bump_cancel] <;>
    first
      | ring1
      | (split_ifs <;> ring)

/-- A single delta application commutes past a list of applications. -/
theorem apply_list_comm (ledger : List ReplicasEntry)
    (l : List (ReplicasEntry × ℤ)) :
    ∀ (fs : FsUsage) (x : ReplicasEntry × ℤ),
      apply_delta ledger (apply_list ledger fs l) x
        = apply_list ledger (apply_delta ledger fs x) l := by
  induction l with
  | nil => intro fs x; rfl
  | cons b tl ih =>
    intro fs x
    show apply_delta ledger (apply_list ledger (apply_delta ledger fs b) tl) x
      = apply_list ledger (apply_delta ledger (apply_delta ledger fs x) b) tl
    rw [ih, apply_delta_comm]

/-- Unwinding (negated re-application, in application order) of an applied
prefix restores the original aggregate — the heart of all-or-nothing. -/
theorem unwind_applied (ledger : List ReplicasEntry)
    (l : List (ReplicasEntry × ℤ)) :
    ∀ fs : FsUsage,
      l.foldl (unapply_delta ledger) (apply_list ledger fs l) = fs := by
  induction l with
  | nil => intro fs; rfl
  | cons b tl ih =>
    intro fs
    show tl.foldl (unapply_delta ledger)
      (unapply_delta ledger (apply_list ledger (apply_delta ledger fs b) tl) b)
      = fs
    have hun : unapply_delta ledger
        (apply_list ledger (apply_delta ledger fs b) tl) b
        = apply_list ledger fs tl := by
      show apply_delta ledger
        (apply_list ledger (apply_delta ledger fs b) tl) (b.1, -b.2)
        = apply_list ledger fs tl
      rw [apply_list_comm, apply_delta_cancel]
    rw [hun, ih]

/-- Delta applications do not touch the inode, reservation or hidden
counters. -/
theorem apply_delta_preserves (ledger : List ReplicasEntry) (fs : FsUsage)
    (a : ReplicasEntry × ℤ) :
    (apply_delta ledger fs a).nr_inodes = fs.nr_inodes ∧
    (apply_delta ledger fs a).reserved = fs.reserved ∧
    (apply_delta ledger fs a).persistent_reserved = fs.persistent_reserved := by
  unfold apply_delta update_replicas
  cases hx : replicas_entry_idx ledger a.1 <;>
    simp [hx, (dtb_fields _ _ _).2.2.2.2.1,
      (dtb_fields _ _ _).2.2.2.2.2.2.1,
      (dtb_fields _ _ _).2.2.2.2.2.2.2.1]

/-- List version of `apply_delta_preserves`. -/
theorem apply_list_preserves (ledger : List ReplicasEntry)
    (l : List (ReplicasEntry × ℤ)) :
    ∀ fs : FsUsage,
      (apply_list ledger fs l).nr_inodes = fs.nr_inodes ∧
      (apply_list ledger fs l).reserved = fs.reserved ∧
      (apply_list ledger fs l).persistent_reserved
        = fs.persistent_reserved := by
  induction l with
  | nil => intro fs; exact ⟨rfl, rfl, rfl⟩
  | cons b tl ih =>
    intro fs
    have h1 := apply_delta_preserves ledger fs b
    have h2 := ih (apply_delta ledger fs b)
    exact ⟨h2.1.trans h1.1, h2.2.1.trans h1.2.1, h2.2.2.trans h1.2.2⟩

/-- The main-loop specification: started on an aggregate holding an
applied (all-resolvable) prefix, the loop either applies the rest in order
and returns 0, or, at the first unresolvable entry, returns `-1` with the
aggregate restored to its pre-prefix value. -/
theorem delta_loop_spec (ledger : List ReplicasEntry) :
    ∀ (ds applied : List (ReplicasEntry × ℤ)) (fs0 : FsUsage),
    ((∀ a ∈ ds, (replicas_entry_idx ledger a.1).isSome) →
      delta_list_apply_loop ledger (apply_list ledger fs0 applied) applied ds
        = (0, apply_list ledger fs0 (applied ++ ds))) ∧
    ((∃ a ∈ ds, replicas_entry_idx ledger a.1 = none) →
      delta_list_apply_loop ledger (apply_list ledger fs0 applied) applied ds
        = (-1, fs0)) := by
  intro ds
  induction ds with
  | nil =>
    intro applied fs0
    constructor
    · intro _
      simp [delta_list_apply_loop]
    · rintro ⟨a, ha, _⟩
      exact absurd ha (List.not_mem_nil a)
  | cons a rest ih =>
    intro applied fs0
    by_cases hidx : (replicas_entry_idx ledger a.1).isSome
    · obtain ⟨i, hi⟩ := Option.isSome_iff_exists.mp hidx
      have hupd : update_replicas ledger (apply_list ledger fs0 applied)
          a.1 a.2 = some (apply_delta ledger (apply_list ledger fs0 applied) a) := by
        unfold apply_delta update_replicas
        rw [hi]
        rfl
      have hstep : apply_delta ledger (apply_list ledger fs0 applied) a
          = apply_list ledger fs0 (applied ++ [a]) := by
        unfold apply_list
        rw [List.foldl_append]
        rfl
      have hloop : delta_list_apply_loop ledger
          (apply_list ledger fs0 applied) applied (a :: rest)
          = delta_list_apply_loop ledger
            (apply_list ledger fs0 (applied ++ [a])) (applied ++ [a]) rest := by
        simp only [delta_list_apply_loop]
        rw [hupd, hstep]
      constructor
      · intro hall
        rw [hloop, (ih (applied ++ [a]) fs0).1
          (fun o ho => hall o (List.mem_cons_of_mem a ho))]
        simp
      · rintro ⟨b, hb, hbnone⟩
        rcases List.mem_cons.mp hb with hba | hbrest
        · rw [hba] at hbnone
          rw [hbnone] at hi
          cases hi
        · rw [hloop]
          exact (ih (applied ++ [a]) fs0).2 ⟨b, hbrest, hbnone⟩
    · have hnone : replicas_entry_idx ledger a.1 = none :=
        Option.not_isSome_iff_eq_none.mp hidx
      have hupd : update_replicas ledger (apply_list ledger fs0 applied)
          a.1 a.2 = none := by
        unfold update_replicas
        rw [hnone]
      have hloop : delta_list_apply_loop ledger
          (apply_list ledger fs0 applied) applied (a :: rest)
          = (-1, applied.foldl (unapply_delta ledger)
              (apply_list ledger fs0 applied)) := by
        unfold delta_list_apply_loop
        rw [hupd]
      constructor
      · intro hall
        exact absurd (hall a (List.mem_cons_self a rest))
          (by rw [hnone]; simp)
      · intro _
        rw [hloop, unwind_applied]

/-- Pointwise value of the four-entry `bump` chain used by the
reservation fold. -/
theorem bump_chain4 (f p : ℕ → ℤ) (i : ℕ) :
    bump (bump (bump (bump f 0 (p 0)) 1 (p 1)) 2 (p 2)) 3 (p 3) i
      = f i + (if i < 4 then p i else 0) := by
  unfold bump
  split_ifs <;> (try subst_vars) <;> omega

/-- Evaluation of the success-path reservation fold (over the
`BCH_REPLICAS_MAX = 4` replication factors). -/
theorem pr_fold_fields (fs1 : FsUsage) (r : ReplicasDeltaList) :
    ((List.range BCH_REPLICAS_MAX).foldl
      (fun f i =>
        { f with reserved := f.reserved + r.persistent_reserved i,
                 persistent_reserved :=
                   bump f.persistent_reserved i (r.persistent_reserved i) })
      fs1).reserved
      = fs1.reserved + (r.persistent_reserved 0 + r.persistent_reserved 1 +
          r.persistent_reserved 2 + r.persistent_reserved 3) ∧
    ((List.range BCH_REPLICAS_MAX).foldl
      (fun f i =>
        { f with reserved := f.reserved + r.persistent_reserved i,
                 persistent_reserved :=
                   bump f.persistent_reserved i (r.persistent_reserved i) })
      fs1).nr_inodes = fs1.nr_inodes ∧
    (∀ i, ((List.range BCH_REPLICAS_MAX).foldl
      (fun f i =>
        { f with reserved := f.reserved + r.persistent_reserved i,
                 persistent_reserved :=
                   bump f.persistent_reserved i (r.persistent_reserved i) })
      fs1).persistent_reserved i
      = fs1.persistent_reserved i +
        (if i < BCH_REPLICAS_MAX then r.persistent_reserved i else 0)) := by
  have hrange : List.range BCH_REPLICAS_MAX = [0, 1, 2, 3] := by rfl
  rw [hrange]
  refine ⟨by simp [List.foldl]; ring, by simp [List.foldl], ?_⟩
  intro i
  show bump (bump (bump (bump fs1.persistent_reserved 0
      (r.persistent_reserved 0)) 1 (r.persistent_reserved 1)) 2
      (r.persistent_reserved 2)) 3 (r.persistent_reserved 3) i
    = fs1.persistent_reserved i +
      (if i < BCH_REPLICAS_MAX then r.persistent_reserved i else 0)
  rw [bump_chain4]
  rfl

/-- Claim C1: `bch2_replicas_delta_list_apply` is all-or-nothing.  If any
entry's descriptor is not in the ledger, it returns `-1` with the target
aggregate exactly as it was (all previously applied entries unwound); if
every entry resolves it returns 0, and only then are the inode-count and
per-replication-factor reservation deltas folded into the aggregate. -/
theorem replicas_delta_list_all_or_nothing (ledger : List ReplicasEntry)
    (fs : FsUsage) (r : ReplicasDeltaList) :
    ((∃ a ∈ r.d, replicas_entry_idx ledger a.1 = none) →
      bch2_replicas_delta_list_apply ledger fs r = (-1, fs)) ∧
    ((∀ a ∈ r.d, (replicas_entry_idx ledger a.1).isSome) →
      (bch2_replicas_delta_list_apply ledger fs r).1 = 0 ∧
      (bch2_replicas_delta_list_apply ledger fs r).2.nr_inodes
        = fs.nr_inodes + r.nr_inodes ∧
      (bch2_replicas_delta_list_apply ledger fs r).2.reserved
        = fs.reserved + (r.persistent_reserved 0 + r.persistent_reserved 1 +
            r.persistent_reserved 2 + r.persistent_reserved 3) ∧
      (∀ i, (bch2_replicas_delta_list_apply ledger fs r).2.persistent_reserved i
        = fs.persistent_reserved i +
          (if i < BCH_REPLICAS_MAX then r.persistent_reserved i else 0))) := by
  have hspec := delta_loop_spec ledger r.d [] fs
  constructor
  · intro hex
    have hloop := hspec.2 hex
    unfold bch2_replicas_delta_list_apply
    have : apply_list ledger fs [] = fs := rfl
    rw [this] at hloop
    rw [hloop]
    rfl
  · intro hall
    have hloop := hspec.1 hall
    have : apply_list ledger fs [] = fs := rfl
    rw [this] at hloop
    have hnil : ([] : List (ReplicasEntry × ℤ)) ++ r.d = r.d := rfl
    rw [hnil] at hloop
    have hpres := apply_list_preserves ledger r.d fs
    unfold bch2_replicas_delta_list_apply
    rw [hloop]
    have hfold := pr_fold_fields
      { apply_list ledger fs r.d with
        nr_inodes := (apply_list ledger fs r.d).nr_inodes + r.nr_inodes } r
    refine ⟨rfl, ?_, ?_, ?_⟩
    · simpa using hfold.2.1.trans (congrArg (· + r.nr_inodes) hpres.1)
    · simpa using hfold.1.trans (by rw [show ({ apply_list ledger fs r.d with
        nr_inodes := (apply_list ledger fs r.d).nr_inodes + r.nr_inodes } : FsUsage).reserved
          = (apply_list ledger fs r.d).reserved from rfl, hpres.2.1])
    · intro i
      have := hfold.2.2 i
      simpa using this.trans (by rw [show ({ apply_list ledger fs r.d with
        nr_inodes := (apply_list ledger fs r.d).nr_inodes + r.nr_inodes } : FsUsage).persistent_reserved
          = (apply_list ledger fs r.d).persistent_reserved from rfl,
        hpres.2.2])

/-- A one-entry ledger holding the single-device user replication scheme. -/
def ledgerOne : List ReplicasEntry :=
  [{ data_type := .user, nr_required := 1, devs := [0] }]

/-- A concrete delta list: one resolvable 5-sector delta, 3 inodes, and a
2-sector single-replica reservation. -/
def deltaListOne : ReplicasDeltaList :=
  { d := [({ data_type := .user, nr_required := 1, devs := [0] }, 5)],
    nr_inodes := 3,
    persistent_reserved := fun i => if i = 0 then 2 else 0 }

/-- Witness for C1: applying `deltaListOne` against `ledgerOne` succeeds
and folds the inode and reservation deltas. -/
theorem replicas_delta_list_all_or_nothing_witness :
    (bch2_replicas_delta_list_apply ledgerOne fsZero deltaListOne).1 = 0 ∧
    (bch2_replicas_delta_list_apply ledgerOne fsZero deltaListOne).2.nr_inodes
      = fsZero.nr_inodes + deltaListOne.nr_inodes ∧
    (bch2_replicas_delta_list_apply ledgerOne fsZero deltaListOne).2.reserved
      = fsZero.reserved + (deltaListOne.persistent_reserved 0 +
          deltaListOne.persistent_reserved 1 +
          deltaListOne.persistent_reserved 2 +
          deltaListOne.persistent_reserved 3) ∧
    (∀ i, (bch2_replicas_delta_list_apply ledgerOne fsZero
        deltaListOne).2.persistent_reserved i
      = fsZero.persistent_reserved i +
        (if i < BCH_REPLICAS_MAX then deltaListOne.persistent_reserved i
         else 0)) :=
  (replicas_delta_list_all_or_nothing ledgerOne fsZero deltaListOne).2
    (by decide)

end Buckets
